import Mathlib

/-!
Shallow embedding of the StellarLend lending-protocol core
(`contracts/hello-world/src`: `lib.rs`, `deposit.rs`, `borrow.rs`,
`repay.rs`, `withdraw.rs`, `liquidate.rs`).

Conventions of the embedding:
* Rust `i128` values are modelled as `Int`; the one place where claims are
  about 128-bit overflow (`calculate_interest`) wraps its intermediate
  products through `wrap128` explicitly (release-profile Rust wraps on
  overflow).  Rust `/` on `i128` truncates toward zero, which is `Int.tdiv`.
* Rust `u64` timestamps are `Nat`.
* Contract storage is explicit state passing: `ProtocolState` carries the
  position map, the global `InterestRateState`, the reserve/revenue
  accumulators and the reentrancy flag.  Read-only configuration
  (risk config, interest-rate config, minimum collateral ratio), the
  ledger timestamp and the oracle price (`PriceOracle::get_price`) are
  passed in a `Ctx` record, since none of the five mutating operations
  writes them.  `require_kyc` and `check_aml` always return `Ok` in the
  source, so they do not appear; `require_not_blacklisted` and
  `FrozenAccounts::is_frozen` are the `blacklisted`/`frozen` predicates of
  the context.  User-activity tracking and event emission are not part of
  any claim and are omitted.
-/

namespace StellarLend

/-- Largest `i128` value (used as the infinite-ratio sentinel `i128::MAX`). -/
def I128_MAX : Int := 2 ^ 127 - 1

/-- Two's-complement wrap of an integer into the `i128` range. -/
def wrap128 (x : Int) : Int := (x + 2 ^ 127) % 2 ^ 128 - 2 ^ 127

/-- `Position` struct of `lib.rs`. -/
structure Position where
  user : String
  collateral : Int
  debt : Int
  borrow_interest : Int
  supply_interest : Int
  last_accrual_time : Nat
deriving Repr, DecidableEq

/-- `Position::new` (`lib.rs`): zeroed interest fields and accrual time. -/
def Position.new (user : String) (collateral debt : Int) : Position :=
  { user := user, collateral := collateral, debt := debt,
    borrow_interest := 0, supply_interest := 0, last_accrual_time := 0 }

/-- `InterestRateConfig` struct of `lib.rs`. -/
structure InterestRateConfig where
  base_rate : Int
  kink_utilization : Int
  multiplier : Int
  reserve_factor : Int
  rate_ceiling : Int
  rate_floor : Int
  last_update : Nat
deriving Repr, DecidableEq

/-- `InterestRateConfig::default` (`lib.rs`). -/
def InterestRateConfig.default : InterestRateConfig :=
  { base_rate := 2000000, kink_utilization := 80000000, multiplier := 10000000,
    reserve_factor := 10000000, rate_ceiling := 50000000, rate_floor := 100000,
    last_update := 0 }

/-- `InterestRateState` struct of `lib.rs`. -/
structure InterestRateState where
  current_borrow_rate : Int
  current_supply_rate : Int
  utilization_rate : Int
  total_borrowed : Int
  total_supplied : Int
  last_accrual_time : Nat
deriving Repr, DecidableEq

/-- `InterestRateState::initial` (`lib.rs`). -/
def InterestRateState.initial : InterestRateState :=
  { current_borrow_rate := 0, current_supply_rate := 0, utilization_rate := 0,
    total_borrowed := 0, total_supplied := 0, last_accrual_time := 0 }

/-- `RiskConfig` struct of `lib.rs`. -/
structure RiskConfig where
  close_factor : Int
  liquidation_incentive : Int
  pause_borrow : Bool
  pause_deposit : Bool
  pause_withdraw : Bool
  pause_liquidate : Bool
  last_update : Nat
deriving Repr, DecidableEq

/-- `RiskConfig::default` (`lib.rs`). -/
def RiskConfig.default : RiskConfig :=
  { close_factor := 50000000, liquidation_incentive := 10000000,
    pause_borrow := false, pause_deposit := false,
    pause_withdraw := false, pause_liquidate := false, last_update := 0 }

/-- `ReserveData` struct of `lib.rs` (address and distribution-time fields
omitted: no mutating operation touches them). -/
structure ReserveData where
  total_fees_collected : Int
  total_fees_distributed : Int
  current_reserves : Int
deriving Repr, DecidableEq

/-- `RevenueMetrics` struct of `lib.rs`. -/
structure RevenueMetrics where
  daily_fees : Int
  weekly_fees : Int
  monthly_fees : Int
  total_borrow_fees : Int
  total_supply_fees : Int
deriving Repr, DecidableEq

/-- `ProtocolError` variants of `lib.rs` reachable from the five mutating
operations. -/
inductive ProtocolError where
  | Unauthorized
  | InsufficientCollateral
  | InsufficientCollateralRatio
  | InvalidAmount
  | InvalidAddress
  | PositionNotFound
  | NotAdmin
  | ProtocolPaused
  | NotEligibleForLiquidation
  | StorageError
  | ReentrancyDetected
deriving Repr, DecidableEq

instance : DecidableEq (Except ProtocolError Unit) := fun
  | .ok (), .ok () => isTrue rfl
  | .ok (), .error _ => isFalse (fun h => by cases h)
  | .error _, .ok () => isFalse (fun h => by cases h)
  | .error e, .error f =>
    if h : e = f then isTrue (by rw [h])
    else isFalse (fun hh => h (by cases hh; rfl))

namespace InterestRateManager

/-- `InterestRateManager::calculate_utilization` (`lib.rs`). -/
def calculate_utilization (total_borrowed total_supplied : Int) : Int :=
  if total_supplied = 0 then 0
  else Int.tdiv (total_borrowed * 100000000) total_supplied

/-- `InterestRateManager::calculate_borrow_rate` (`lib.rs`). -/
def calculate_borrow_rate (utilization : Int) (config : InterestRateConfig) : Int :=
  let rate := config.base_rate
  let rate :=
    if utilization > config.kink_utilization then
      rate + Int.tdiv ((utilization - config.kink_utilization) * config.multiplier) 100000000
    else rate
  min (max rate config.rate_floor) config.rate_ceiling

/-- `InterestRateManager::calculate_supply_rate` (`lib.rs`). -/
def calculate_supply_rate (borrow_rate utilization reserve_factor : Int) : Int :=
  let effective_rate := Int.tdiv (borrow_rate * utilization) 100000000
  let protocol_fee := Int.tdiv (effective_rate * reserve_factor) 100000000
  effective_rate - protocol_fee

/-- `InterestRateManager::calculate_interest` (`lib.rs`).  The source
multiplies three `i128` values before dividing; each multiplication is a
128-bit machine operation, modelled with `wrap128`. -/
def calculate_interest (principal rate : Int) (time_delta : Nat) : Int :=
  if principal = 0 ∨ rate = 0 ∨ time_delta = 0 then 0
  else
    Int.tdiv (wrap128 (wrap128 (principal * rate) * (time_delta : Int)))
      (31536000 * 100000000)

/-- `InterestRateManager::update_rates` (`lib.rs`); `now` is
`env.ledger().timestamp()`. -/
def update_rates (state : InterestRateState) (config : InterestRateConfig)
    (now : Nat) : InterestRateState :=
  let utilization := calculate_utilization state.total_borrowed state.total_supplied
  let borrow_rate := calculate_borrow_rate utilization config
  let supply_rate := calculate_supply_rate borrow_rate utilization config.reserve_factor
  { state with
    utilization_rate := utilization,
    current_borrow_rate := borrow_rate,
    current_supply_rate := supply_rate,
    last_accrual_time := now }

/-- `InterestRateManager::accrue_interest_for_position` (`lib.rs`); `now` is
`env.ledger().timestamp()`.  Note the source only stamps
`last_accrual_time = now` inside the `time_delta > 0` branch, and
`time_delta` is forced to `0` whenever `last_accrual_time == 0`. -/
def accrue_interest_for_position (position : Position)
    (borrow_rate supply_rate : Int) (now : Nat) : Position :=
  let time_delta : Nat :=
    if position.last_accrual_time = 0 then 0 else now - position.last_accrual_time
  if time_delta > 0 then
    let position :=
      if position.debt > 0 then
        { position with borrow_interest :=
            position.borrow_interest + calculate_interest position.debt borrow_rate time_delta }
      else position
    let position :=
      if position.collateral > 0 then
        { position with supply_interest :=
            position.supply_interest + calculate_interest position.collateral supply_rate time_delta }
      else position
    { position with last_accrual_time := now }
  else position

/-- `InterestRateManager::collect_fees_from_interest` (`lib.rs`), returning
`(borrow_fee, supply_fee)`. -/
def collect_fees_from_interest (borrow_interest supply_interest reserve_factor : Int) :
    Int × Int :=
  let borrow_fee := Int.tdiv (borrow_interest * reserve_factor) 100000000
  let total_supply_interest_without_fee :=
    Int.tdiv (supply_interest * 100000000) (100000000 - reserve_factor)
  (borrow_fee, total_supply_interest_without_fee - supply_interest)

end InterestRateManager

namespace StateHelper

/-- `StateHelper::collateral_ratio` (`lib.rs`): static percent ratio. -/
def collateral_ratio (position : Position) : Int :=
  if position.debt = 0 then I128_MAX
  else Int.tdiv (position.collateral * 100) position.debt

/-- `StateHelper::dynamic_collateral_ratio` (`lib.rs`); `price` is the value
returned by `PriceOracle::get_price` (scaled by 1e8). -/
def dynamic_collateral_ratio (position : Position) (price : Int) : Int :=
  if position.debt = 0 then I128_MAX
  else Int.tdiv (Int.tdiv (position.collateral * price * 100) 100000000) position.debt

end StateHelper

/-- Read-only environment of one call: ledger timestamp, oracle price,
configured minimum collateral ratio, risk and interest-rate configuration,
and the frozen/blacklisted predicates of the compliance gate. -/
structure Ctx where
  now : Nat
  price : Int
  minRatio : Int
  riskConfig : RiskConfig
  irConfig : InterestRateConfig
  frozen : String → Bool
  blacklisted : String → Bool

/-- Mutable contract storage touched by the five operations. -/
structure ProtocolState where
  reentrancy : Bool
  positions : List (String × Position)
  irState : InterestRateState
  reserveData : ReserveData
  metrics : RevenueMetrics
deriving DecidableEq

/-- `StateHelper::get_position`: first binding of the user key. -/
def getPositionOpt (ps : List (String × Position)) (user : String) : Option Position :=
  (ps.find? fun q => q.1 = user).map fun q => q.2

/-- `StateHelper::save_position`: overwrite the first binding of the user
key, or insert a fresh binding. -/
def putPosition : List (String × Position) → String → Position → List (String × Position)
  | [], user, p => [(user, p)]
  | q :: rest, user, p =>
    if q.1 = user then (user, p) :: rest else q :: putPosition rest user p

/-- `InterestRateStorage::update_state` (`lib.rs`): recompute rates from the
stored state and config, stamp the time, and persist. -/
def updateState (ctx : Ctx) (σ : ProtocolState) : ProtocolState :=
  { σ with irState := InterestRateManager.update_rates σ.irState ctx.irConfig ctx.now }

/-- The `ReentrancyGuard::enter … ReentrancyGuard::exit` bracket shared by
all five operations: fail fast if the flag is set, otherwise run the body
with the flag set and clear it unconditionally afterwards. -/
def withGuard (σ : ProtocolState)
    (body : ProtocolState → ProtocolState × Except ProtocolError Unit) :
    ProtocolState × Except ProtocolError Unit :=
  if σ.reentrancy then (σ, .error .ReentrancyDetected)
  else
    let r := body { σ with reentrancy := true }
    ({ r.1 with reentrancy := false }, r.2)

/-- Load-or-default of a user position (`StateHelper::get_position(..).unwrap_or(Position::new(.., 0, 0))`). -/
def loadedPosition (σ0 : ProtocolState) (user : String) : Position :=
  (getPositionOpt σ0.positions user).getD (Position.new user 0 0)

/-- The "load, refresh global rate state, accrue" composite that deposit,
borrow, repay and liquidate all perform before mutating the position. -/
def accruedPosition (ctx : Ctx) (σ0 : ProtocolState) (user : String) : Position :=
  let state := (updateState ctx σ0).irState
  InterestRateManager.accrue_interest_for_position (loadedPosition σ0 user)
    state.current_borrow_rate state.current_supply_rate ctx.now

/-- Book a fee into the reserve data and revenue metrics; `borrowSide`
selects between `total_borrow_fees` and `total_supply_fees`. -/
def bookFee (σ3 : ProtocolState) (fee : Int) (borrowSide : Bool) : ProtocolState :=
  if fee > 0 then
    { σ3 with
      reserveData := { σ3.reserveData with
        total_fees_collected := σ3.reserveData.total_fees_collected + fee,
        current_reserves := σ3.reserveData.current_reserves + fee },
      metrics :=
        if borrowSide then
          { σ3.metrics with total_borrow_fees := σ3.metrics.total_borrow_fees + fee }
        else
          { σ3.metrics with total_supply_fees := σ3.metrics.total_supply_fees + fee } }
  else σ3

/-- Success-path state change of `deposit::deposit_collateral` after the
validation checks. -/
def depositApply (ctx : Ctx) (σ0 : ProtocolState) (depositor : String)
    (amount : Int) : ProtocolState :=
  let σ1 := updateState ctx σ0
  let position := accruedPosition ctx σ0 depositor
  let position := { position with collateral := position.collateral + amount }
  let σ2 := { σ1 with positions := putPosition σ1.positions depositor position }
  let σ3 := { σ2 with irState :=
    { σ2.irState with total_supplied := σ2.irState.total_supplied + amount } }
  if position.supply_interest > 0 then
    bookFee σ3 ((InterestRateManager.collect_fees_from_interest 0
      position.supply_interest ctx.irConfig.reserve_factor).2) false
  else σ3

/-- `deposit::deposit_collateral`. -/
def deposit_collateral (ctx : Ctx) (σ : ProtocolState) (depositor : String)
    (amount : Int) : ProtocolState × Except ProtocolError Unit :=
  withGuard σ fun σ0 =>
    if depositor = "" then (σ0, .error .InvalidAddress)
    else if amount ≤ 0 then (σ0, .error .InvalidAmount)
    else if ctx.riskConfig.pause_deposit then (σ0, .error .ProtocolPaused)
    else if ctx.frozen depositor then (σ0, .error .Unauthorized)
    else if ctx.blacklisted depositor then (σ0, .error .Unauthorized)
    else (depositApply ctx σ0 depositor amount, .ok ())

/-- The tentative position `new_position` of `borrow::borrow`: the accrued
position with `debt += amount`. -/
def borrowNewPosition (ctx : Ctx) (σ0 : ProtocolState) (borrower : String)
    (amount : Int) : Position :=
  let position := accruedPosition ctx σ0 borrower
  { position with debt := position.debt + amount }

/-- Success-path state change of `borrow::borrow` after the ratio check. -/
def borrowApply (ctx : Ctx) (σ0 : ProtocolState) (borrower : String)
    (amount : Int) : ProtocolState :=
  let σ1 := updateState ctx σ0
  let position := borrowNewPosition ctx σ0 borrower amount
  let σ2 := { σ1 with positions := putPosition σ1.positions borrower position }
  let σ3 := { σ2 with irState :=
    { σ2.irState with total_borrowed := σ2.irState.total_borrowed + amount } }
  if position.borrow_interest > 0 then
    bookFee σ3 ((InterestRateManager.collect_fees_from_interest
      position.borrow_interest 0 ctx.irConfig.reserve_factor).1) true
  else σ3

/-- `borrow::borrow`. -/
def borrow (ctx : Ctx) (σ : ProtocolState) (borrower : String) (amount : Int) :
    ProtocolState × Except ProtocolError Unit :=
  withGuard σ fun σ0 =>
    if borrower = "" then (σ0, .error .InvalidAddress)
    else if amount ≤ 0 then (σ0, .error .InvalidAmount)
    else if ctx.riskConfig.pause_borrow then (σ0, .error .ProtocolPaused)
    else if ctx.frozen borrower then (σ0, .error .Unauthorized)
    else if ctx.blacklisted borrower then (σ0, .error .Unauthorized)
    else if StateHelper.dynamic_collateral_ratio
        (borrowNewPosition ctx σ0 borrower amount) ctx.price < ctx.minRatio then
      (updateState ctx σ0, .error .InsufficientCollateralRatio)
    else (borrowApply ctx σ0 borrower amount, .ok ())

/-- Success-path state change of `repay::repay`. -/
def repayApply (ctx : Ctx) (σ0 : ProtocolState) (repayer : String)
    (amount : Int) : ProtocolState :=
  let σ1 := updateState ctx σ0
  let position := accruedPosition ctx σ0 repayer
  let old_debt := position.debt
  let position := { position with debt := max (position.debt - amount) 0 }
  let σ2 := { σ1 with positions := putPosition σ1.positions repayer position }
  { σ2 with irState :=
    { σ2.irState with total_borrowed :=
        σ2.irState.total_borrowed - (old_debt - position.debt) } }

/-- `repay::repay`. -/
def repay (ctx : Ctx) (σ : ProtocolState) (repayer : String) (amount : Int) :
    ProtocolState × Except ProtocolError Unit :=
  withGuard σ fun σ0 =>
    if repayer = "" then (σ0, .error .InvalidAddress)
    else if amount ≤ 0 then (σ0, .error .InvalidAmount)
    else if ctx.frozen repayer then (σ0, .error .Unauthorized)
    else if ctx.blacklisted repayer then (σ0, .error .Unauthorized)
    else (repayApply ctx σ0 repayer amount, .ok ())

/-- `withdraw::withdraw`.  Note: no rate refresh and no interest accrual. -/
def withdraw (ctx : Ctx) (σ : ProtocolState) (withdrawer : String) (amount : Int) :
    ProtocolState × Except ProtocolError Unit :=
  withGuard σ fun σ0 =>
    if withdrawer = "" then (σ0, .error .InvalidAddress)
    else if amount ≤ 0 then (σ0, .error .InvalidAmount)
    else if ctx.riskConfig.pause_withdraw then (σ0, .error .ProtocolPaused)
    else if ctx.frozen withdrawer then (σ0, .error .Unauthorized)
    else
      match getPositionOpt σ0.positions withdrawer with
      | none => (σ0, .error .PositionNotFound)
      | some position =>
        if position.collateral < amount then (σ0, .error .InsufficientCollateral)
        else
          let position := { position with collateral := position.collateral - amount }
          if StateHelper.collateral_ratio position < ctx.minRatio then
            (σ0, .error .InsufficientCollateralRatio)
          else
            ({ σ0 with positions := putPosition σ0.positions withdrawer position },
             .ok ())

/-- `repay_amount = amount.min(debt).min(debt * close_factor / 1e8)` of
`liquidate::liquidate`, computed on the accrued target position. -/
def liquidateRepayAmount (ctx : Ctx) (position : Position) (amount : Int) : Int :=
  let max_repay_amount :=
    Int.tdiv (position.debt * ctx.riskConfig.close_factor) 100000000
  min (min amount position.debt) max_repay_amount

/-- `actual_collateral_seized` of `liquidate::liquidate`:
`min(repay_amount + incentive, collateral)`. -/
def liquidateSeize (ctx : Ctx) (position : Position) (repay_amount : Int) : Int :=
  let incentive_amount :=
    Int.tdiv (repay_amount * ctx.riskConfig.liquidation_incentive) 100000000
  min (repay_amount + incentive_amount) position.collateral

/-- Success-path state change of `liquidate::liquidate`: `σ1` is the state
after `update_state`, `position` the accrued target position. -/
def liquidateApply (ctx : Ctx) (σ1 : ProtocolState) (target : String)
    (position : Position) (repay_amount : Int) : ProtocolState :=
  let actual_collateral_seized := liquidateSeize ctx position repay_amount
  let position := { position with
    debt := position.debt - repay_amount,
    collateral := position.collateral - actual_collateral_seized }
  let σ2 := { σ1 with positions := putPosition σ1.positions target position }
  { σ2 with irState :=
    { σ2.irState with total_borrowed := σ2.irState.total_borrowed - repay_amount } }

/-- `liquidate::liquidate`. -/
def liquidate (ctx : Ctx) (σ : ProtocolState) (liquidator target : String)
    (amount : Int) : ProtocolState × Except ProtocolError Unit :=
  withGuard σ fun σ0 =>
    if liquidator = "" ∨ target = "" then (σ0, .error .InvalidAddress)
    else if amount ≤ 0 then (σ0, .error .InvalidAmount)
    else if ctx.riskConfig.pause_liquidate then (σ0, .error .ProtocolPaused)
    else if ctx.frozen target then (σ0, .error .Unauthorized)
    else
      match getPositionOpt σ0.positions target with
      | none => (σ0, .error .PositionNotFound)
      | some position =>
        let σ1 := updateState ctx σ0
        let position := InterestRateManager.accrue_interest_for_position position
          σ1.irState.current_borrow_rate σ1.irState.current_supply_rate ctx.now
        if StateHelper.dynamic_collateral_ratio position ctx.price ≥ ctx.minRatio then
          (σ1, .error .NotEligibleForLiquidation)
        else
          let repay_amount := liquidateRepayAmount ctx position amount
          if repay_amount = 0 then (σ1, .error .InvalidAmount)
          else (liquidateApply ctx σ1 target position repay_amount, .ok ())

/-- One invocation of a mutating entry point. -/
inductive Op where
  | deposit (user : String) (amount : Int)
  | borrow (user : String) (amount : Int)
  | repay (user : String) (amount : Int)
  | withdraw (user : String) (amount : Int)
  | liquidate (liquidator target : String) (amount : Int)

/-- Dispatch one operation. -/
def applyOp (ctx : Ctx) (σ : ProtocolState) : Op → ProtocolState × Except ProtocolError Unit
  | .deposit u a => deposit_collateral ctx σ u a
  | .borrow u a => borrow ctx σ u a
  | .repay u a => repay ctx σ u a
  | .withdraw u a => withdraw ctx σ u a
  | .liquidate l t a => liquidate ctx σ l t a

/-- Run a sequence of operations, each under its own call environment,
keeping whatever state each call leaves behind. -/
def runTrace (σ : ProtocolState) : List (Ctx × Op) → ProtocolState
  | [] => σ
  | step :: rest => runTrace (applyOp step.1 σ step.2).1 rest

/-- Every operation of the sequence returned `Ok`. -/
def traceOk : ProtocolState → List (Ctx × Op) → Bool
  | _, [] => true
  | σ, step :: rest =>
    decide ((applyOp step.1 σ step.2).2 = .ok ()) &&
      traceOk (applyOp step.1 σ step.2).1 rest

/-- Sum of the `debt` fields of all stored positions. -/
def sumDebt (ps : List (String × Position)) : Int :=
  (ps.map fun q => q.2.debt).sum

/-- Sum of the `collateral` fields of all stored positions. -/
def sumCollateral (ps : List (String × Position)) : Int :=
  (ps.map fun q => q.2.collateral).sum

/-- Operations that mutate a position's collateral without touching
`total_supplied` in the source. -/
def isWithdrawOrLiquidate : Op → Bool
  | .withdraw _ _ => true
  | .liquidate _ _ _ => true
  | _ => false

/-- Bootstrap state: no positions, zeroed aggregates, guard released. -/
def initialState : ProtocolState :=
  { reentrancy := false, positions := [],
    irState := InterestRateState.initial,
    reserveData := { total_fees_collected := 0, total_fees_distributed := 0,
                     current_reserves := 0 },
    metrics := { daily_fees := 0, weekly_fees := 0, monthly_fees := 0,
                 total_borrow_fees := 0, total_supply_fees := 0 } }

/-- Modelled from the spec's words (section 4.1): the exact interest
formula `principal * rate * time_delta / (31_536_000 * 1e8)` with
truncating division and unbounded intermediate arithmetic, used to compare
`calculate_interest` against the specified value. -/
def spec_interest_formula (principal rate : Int) (time_delta : Nat) : Int :=
  if principal = 0 ∨ rate = 0 ∨ time_delta = 0 then 0
  else Int.tdiv (principal * rate * (time_delta : Int)) (31536000 * 100000000)

/-! Concrete call environments and states used by witnesses and
counterexamples. -/

/-- A benign call environment: timestamp 100, oracle price 2.0, minimum
collateral ratio 150 percent, default configs, nobody frozen or
blacklisted. -/
def ctxEx : Ctx :=
  { now := 100, price := 200000000, minRatio := 150,
    riskConfig := RiskConfig.default, irConfig := InterestRateConfig.default,
    frozen := fun _ => false, blacklisted := fun _ => false }

/-- Same environment with account `"B"` frozen. -/
def ctxFrozenB : Ctx := { ctxEx with frozen := fun u => u == "B" }

/-- An undercollateralized position for user `"B"`: collateral 10 against
debt 100 (dynamic ratio 20 percent at price 2.0). -/
def posUnder : Position :=
  { user := "B", collateral := 10, debt := 100, borrow_interest := 0,
    supply_interest := 0, last_accrual_time := 0 }

/-- State holding only the undercollateralized position of `"B"`. -/
def σLiq : ProtocolState :=
  { initialState with
    positions := [("B", posUnder)],
    irState := { InterestRateState.initial with
      total_borrowed := 100, total_supplied := 10 } }

/-- A debt-free position for `"A"` with collateral 100, last accrued at
time 50. -/
def posIdle : Position :=
  { user := "A", collateral := 100, debt := 0, borrow_interest := 0,
    supply_interest := 0, last_accrual_time := 50 }

/-- State holding only the idle position of `"A"`. -/
def σIdle : ProtocolState :=
  { initialState with
    positions := [("A", posIdle)],
    irState := { InterestRateState.initial with total_supplied := 100 } }

/-- State holding a fresh position of `"A"` with collateral 5000. -/
def σRich : ProtocolState :=
  { initialState with
    positions := [("A", Position.new "A" 5000 0)],
    irState := { InterestRateState.initial with total_supplied := 5000 } }

/-- State holding a fresh empty position of `"B"`. -/
def σPoor : ProtocolState :=
  { initialState with positions := [("B", Position.new "B" 0 0)] }

/-- The initial state with the reentrancy flag held. -/
def σHeld : ProtocolState := { initialState with reentrancy := true }

/-- A two-step trace: deposit 10 for `"A"`, then withdraw 5. -/
def depositWithdrawTrace : List (Ctx × Op) :=
  [(ctxEx, .deposit "A" 10), (ctxEx, .withdraw "A" 5)]

/-- A single-step trace: deposit 10 for `"A"`. -/
def depositTrace : List (Ctx × Op) := [(ctxEx, .deposit "A" 10)]

/-! Helper lemmas. -/

lemma accrue_debt (p : Position) (br sr : Int) (now : Nat) :
    (InterestRateManager.accrue_interest_for_position p br sr now).debt = p.debt := by
  unfold InterestRateManager.accrue_interest_for_position
  dsimp only
  repeat' split
  all_goals rfl

lemma accrue_collateral (p : Position) (br sr : Int) (now : Nat) :
    (InterestRateManager.accrue_interest_for_position p br sr now).collateral =
      p.collateral := by
  unfold InterestRateManager.accrue_interest_for_position
  dsimp only
  repeat' split
  all_goals rfl

lemma dynamic_ratio_congr (p q : Position) (price : Int)
    (hd : p.debt = q.debt) (hc : p.collateral = q.collateral) :
    StateHelper.dynamic_collateral_ratio p price =
      StateHelper.dynamic_collateral_ratio q price := by
  unfold StateHelper.dynamic_collateral_ratio
  rw [hd, hc]

lemma getPositionOpt_put (ps : List (String × Position)) (u : String) (p : Position) :
    getPositionOpt (putPosition ps u p) u = some p := by
  induction ps with
  | nil => simp [putPosition, getPositionOpt]
  | cons q rest ih =>
    by_cases h : q.1 = u
    · simp [putPosition, getPositionOpt, h]
    · simp only [putPosition, if_neg h]
      simpa [getPositionOpt, List.find?, h] using ih

lemma withGuard_reentrant (σ : ProtocolState)
    (body : ProtocolState → ProtocolState × Except ProtocolError Unit)
    (h : σ.reentrancy = true) :
    withGuard σ body = (σ, .error .ReentrancyDetected) := by
  simp [withGuard, h]

lemma withGuard_clears (σ : ProtocolState)
    (body : ProtocolState → ProtocolState × Except ProtocolError Unit)
    (h : σ.reentrancy = false) :
    (withGuard σ body).1.reentrancy = false := by
  simp [withGuard, h]

lemma wrap128_eq_self (x : Int) (h1 : -(2 ^ 127) ≤ x) (h2 : x < 2 ^ 127) :
    wrap128 x = x := by
  unfold wrap128
  have h3 : (0 : Int) ≤ x + 2 ^ 127 := by linarith
  have h4 : x + 2 ^ 127 < 2 ^ 128 := by
    have hp : (2 : Int) ^ 128 = 2 ^ 127 + 2 ^ 127 := by ring
    linarith
  rw [Int.emod_eq_of_lt h3 h4]
  ring

/-! Claim theorems. -/

/-- Claim C1 (code bug, evaluation at the failing input): called on a
position whose `last_accrual_time` is 0 at timestamp 100, the source's
`accrue_interest_for_position` returns the position unchanged — in
particular `last_accrual_time` stays 0 instead of being set to the current
timestamp, so the accrual clock never starts. -/
theorem C1_first_touch_leaves_position_unchanged :
    InterestRateManager.accrue_interest_for_position
      { user := "A", collateral := 1000, debt := 500, borrow_interest := 0,
        supply_interest := 0, last_accrual_time := 0 } 2000000 1000000 100 =
      { user := "A", collateral := 1000, debt := 500, borrow_interest := 0,
        supply_interest := 0, last_accrual_time := 0 } := rfl

/-- Claim C7: for each of the five mutating operations, a call made while
the reentrancy flag is set returns `ReentrancyDetected` with the state
untouched, and a call made with the flag clear leaves the flag clear on
return, on every success and error path. -/
theorem C7_reentrancy_guard (ctx : Ctx) (σ : ProtocolState) (u v : String) (a : Int) :
    ((σ.reentrancy = true →
        deposit_collateral ctx σ u a = (σ, .error .ReentrancyDetected)) ∧
      (σ.reentrancy = false → (deposit_collateral ctx σ u a).1.reentrancy = false)) ∧
    ((σ.reentrancy = true → borrow ctx σ u a = (σ, .error .ReentrancyDetected)) ∧
      (σ.reentrancy = false → (borrow ctx σ u a).1.reentrancy = false)) ∧
    ((σ.reentrancy = true → repay ctx σ u a = (σ, .error .ReentrancyDetected)) ∧
      (σ.reentrancy = false → (repay ctx σ u a).1.reentrancy = false)) ∧
    ((σ.reentrancy = true → withdraw ctx σ u a = (σ, .error .ReentrancyDetected)) ∧
      (σ.reentrancy = false → (withdraw ctx σ u a).1.reentrancy = false)) ∧
    ((σ.reentrancy = true → liquidate ctx σ u v a = (σ, .error .ReentrancyDetected)) ∧
      (σ.reentrancy = false → (liquidate ctx σ u v a).1.reentrancy = false)) :=
  ⟨⟨fun h => withGuard_reentrant σ _ h, fun h => withGuard_clears σ _ h⟩,
   ⟨fun h => withGuard_reentrant σ _ h, fun h => withGuard_clears σ _ h⟩,
   ⟨fun h => withGuard_reentrant σ _ h, fun h => withGuard_clears σ _ h⟩,
   ⟨fun h => withGuard_reentrant σ _ h, fun h => withGuard_clears σ _ h⟩,
   ⟨fun h => withGuard_reentrant σ _ h, fun h => withGuard_clears σ _ h⟩⟩

/-- Witness for C7 at concrete inputs: a deposit attempted while the guard
is held fails with `ReentrancyDetected` and changes nothing, and a
liquidation from the released state returns with the guard released. -/
theorem C7_reentrancy_guard_witness :
    deposit_collateral ctxEx σHeld "A" 5 = (σHeld, .error .ReentrancyDetected) ∧
    (liquidate ctxEx σLiq "A" "B" 30).1.reentrancy = false :=
  ⟨(C7_reentrancy_guard ctxEx σHeld "A" "A" 5).1.1 rfl,
   (C7_reentrancy_guard ctxEx σLiq "A" "B" 30).2.2.2.2.2 rfl⟩

/-- Claim C8 (amended): for non-negative operands, `calculate_interest`
returns 0 when any operand is 0, and returns the exact specified value
`principal * rate * time_delta / (31_536_000 * 1e8)` whenever the two
128-bit intermediate products stay below `2 ^ 127`; exactness for every
representable large principal fails (see the overflow counterexample). -/
theorem C8_calculate_interest_exact (p r : Int) (t : Nat)
    (hp : 0 ≤ p) (hr : 0 ≤ r)
    (h1 : p * r < 2 ^ 127) (h2 : p * r * (t : Int) < 2 ^ 127) :
    InterestRateManager.calculate_interest p r t = spec_interest_formula p r t := by
  unfold InterestRateManager.calculate_interest spec_interest_formula
  by_cases hz : p = 0 ∨ r = 0 ∨ t = 0
  · simp [hz]
  · have hpr : 0 ≤ p * r := mul_nonneg hp hr
    have hprt : 0 ≤ p * r * (t : Int) := mul_nonneg hpr (Int.natCast_nonneg t)
    rw [if_neg hz, if_neg hz, wrap128_eq_self (p * r) (by linarith) h1,
      wrap128_eq_self (p * r * (t : Int)) (by linarith) h2]

/-- Witness for C8 at a concrete input: one year of 5 percent interest on a
principal of 1e6 matches the specified formula exactly. -/
theorem C8_calculate_interest_exact_witness :
    InterestRateManager.calculate_interest 1000000 5000000 31536000 =
      spec_interest_formula 1000000 5000000 31536000 :=
  C8_calculate_interest_exact 1000000 5000000 31536000 (by norm_num) (by norm_num)
    (by norm_num) (by norm_num)

set_option maxRecDepth 40000 in
/-- Counterexample for C8: at principal `2 ^ 100`, rate `2 ^ 28` and
time delta 128 seconds the 128-bit intermediate product wraps to 0, so
`calculate_interest` returns 0 while the specified formula value is a huge
positive number — the intermediate arithmetic is not wide enough for every
representable large principal. -/
theorem C8_overflow_counterexample :
    InterestRateManager.calculate_interest (2 ^ 100) (2 ^ 28) 128 = 0 ∧
    spec_interest_formula (2 ^ 100) (2 ^ 28) 128 ≠ 0 :=
  ⟨by decide, by decide⟩

/-- Claim C9 (amended): `liquidate` rejects an empty liquidator or target
with `InvalidAddress`, but performs no self-liquidation check — its result
does not depend on the liquidator identity at all (beyond non-emptiness),
so a liquidator can liquidate their own position whenever the target is
otherwise eligible. -/
theorem C9_liquidator_identity_irrelevant (ctx : Ctx) (σ : ProtocolState)
    (l1 l2 t : String) (a : Int) (h1 : l1 ≠ "") (h2 : l2 ≠ "") :
    liquidate ctx σ l1 t a = liquidate ctx σ l2 t a ∧
    (σ.reentrancy = false → (liquidate ctx σ "" t a).2 = .error .InvalidAddress) := by
  constructor
  · unfold liquidate
    congr 1
    funext σ0
    simp [h1, h2]
  · intro hg
    simp [liquidate, withGuard, hg]

/-- Witness for C9 at concrete inputs: liquidating `"B"` gives the same
outcome whether the liquidator is `"A"` or `"C"`, and an empty liquidator
is rejected with `InvalidAddress`. -/
theorem C9_liquidator_identity_irrelevant_witness :
    liquidate ctxEx σLiq "A" "B" 30 = liquidate ctxEx σLiq "C" "B" 30 ∧
    (liquidate ctxEx σLiq "" "B" 30).2 = .error .InvalidAddress :=
  ⟨(C9_liquidator_identity_irrelevant ctxEx σLiq "A" "C" "B" 30 (by decide)
      (by decide)).1,
   (C9_liquidator_identity_irrelevant ctxEx σLiq "A" "C" "B" 30 (by decide)
      (by decide)).2 rfl⟩

set_option maxRecDepth 40000 in
/-- Counterexample for C9: user `"B"` liquidates their own
undercollateralized position and the call succeeds, so a liquidation with
target equal to liquidator does not always fail. -/
theorem C9_self_liquidation_succeeds :
    (liquidate ctxEx σLiq "B" "B" 30).2 = .ok () := by
  decide

/-- Claim C10: when the target account is frozen, `liquidate` fails with
`Unauthorized` and leaves the state untouched, before any eligibility
computation — for every position store and oracle price, even an eligible
(undercollateralized) target. -/
theorem C10_frozen_target_unauthorized (ctx : Ctx) (σ : ProtocolState)
    (l t : String) (a : Int) (hg : σ.reentrancy = false) (hl : l ≠ "")
    (ht : t ≠ "") (ha : 0 < a) (hp : ctx.riskConfig.pause_liquidate = false)
    (hf : ctx.frozen t = true) :
    liquidate ctx σ l t a = (σ, .error .Unauthorized) := by
  have hna : ¬a ≤ 0 := not_le.mpr ha
  cases σ with
  | mk re ps ir rd m =>
    cases hg
    simp [liquidate, withGuard, hl, ht, hna, hp, hf]

/-- Witness for C10 at a concrete input: with `"B"` frozen, liquidating the
eligible position of `"B"` is rejected with `Unauthorized` and the state is
unchanged. -/
theorem C10_frozen_target_unauthorized_witness :
    liquidate ctxFrozenB σLiq "A" "B" 30 = (σLiq, .error .Unauthorized) :=
  C10_frozen_target_unauthorized ctxFrozenB σLiq "A" "B" 30 rfl (by decide)
    (by decide) (by decide) rfl (by decide)

/-! Projection lemmas for the success-path state builders. -/

lemma loadedPosition_guard (σ : ProtocolState) (u : String) :
    loadedPosition { σ with reentrancy := true } u = loadedPosition σ u := rfl

lemma accruedPosition_guard (ctx : Ctx) (σ : ProtocolState) (u : String) :
    accruedPosition ctx { σ with reentrancy := true } u = accruedPosition ctx σ u := rfl

lemma borrowNewPosition_guard (ctx : Ctx) (σ : ProtocolState) (u : String) (a : Int) :
    borrowNewPosition ctx { σ with reentrancy := true } u a =
      borrowNewPosition ctx σ u a := rfl

lemma accruedPosition_debt (ctx : Ctx) (σ0 : ProtocolState) (u : String) :
    (accruedPosition ctx σ0 u).debt = (loadedPosition σ0 u).debt := by
  unfold accruedPosition
  dsimp only
  rw [accrue_debt]

lemma accruedPosition_collateral (ctx : Ctx) (σ0 : ProtocolState) (u : String) :
    (accruedPosition ctx σ0 u).collateral = (loadedPosition σ0 u).collateral := by
  unfold accruedPosition
  dsimp only
  rw [accrue_collateral]

lemma bookFee_positions (σ : ProtocolState) (f : Int) (b : Bool) :
    (bookFee σ f b).positions = σ.positions := by
  unfold bookFee
  split <;> rfl

lemma bookFee_irState (σ : ProtocolState) (f : Int) (b : Bool) :
    (bookFee σ f b).irState = σ.irState := by
  unfold bookFee
  split <;> rfl

lemma depositApply_positions (ctx : Ctx) (σ0 : ProtocolState) (u : String) (a : Int) :
    (depositApply ctx σ0 u a).positions =
      putPosition σ0.positions u
        { accruedPosition ctx σ0 u with
            collateral := (accruedPosition ctx σ0 u).collateral + a } := by
  unfold depositApply
  dsimp only
  split
  · rw [bookFee_positions]
    rfl
  · rfl

lemma depositApply_irState (ctx : Ctx) (σ0 : ProtocolState) (u : String) (a : Int) :
    (depositApply ctx σ0 u a).irState =
      { InterestRateManager.update_rates σ0.irState ctx.irConfig ctx.now with
          total_supplied := σ0.irState.total_supplied + a } := by
  unfold depositApply
  dsimp only
  split
  · rw [bookFee_irState]
    rfl
  · rfl

lemma borrowApply_positions (ctx : Ctx) (σ0 : ProtocolState) (u : String) (a : Int) :
    (borrowApply ctx σ0 u a).positions =
      putPosition σ0.positions u (borrowNewPosition ctx σ0 u a) := by
  unfold borrowApply
  dsimp only
  split
  · rw [bookFee_positions]
    rfl
  · rfl

lemma borrowApply_irState (ctx : Ctx) (σ0 : ProtocolState) (u : String) (a : Int) :
    (borrowApply ctx σ0 u a).irState =
      { InterestRateManager.update_rates σ0.irState ctx.irConfig ctx.now with
          total_borrowed := σ0.irState.total_borrowed + a } := by
  unfold borrowApply
  dsimp only
  split
  · rw [bookFee_irState]
    rfl
  · rfl

lemma repayApply_positions (ctx : Ctx) (σ0 : ProtocolState) (u : String) (a : Int) :
    (repayApply ctx σ0 u a).positions =
      putPosition σ0.positions u
        { accruedPosition ctx σ0 u with
            debt := max ((accruedPosition ctx σ0 u).debt - a) 0 } := rfl

lemma repayApply_irState (ctx : Ctx) (σ0 : ProtocolState) (u : String) (a : Int) :
    (repayApply ctx σ0 u a).irState =
      { InterestRateManager.update_rates σ0.irState ctx.irConfig ctx.now with
          total_borrowed := σ0.irState.total_borrowed -
            ((accruedPosition ctx σ0 u).debt -
              max ((accruedPosition ctx σ0 u).debt - a) 0) } := rfl

lemma liquidateApply_positions (ctx : Ctx) (σ1 : ProtocolState) (t : String)
    (pos : Position) (r : Int) :
    (liquidateApply ctx σ1 t pos r).positions =
      putPosition σ1.positions t
        { pos with
            debt := pos.debt - r,
            collateral := pos.collateral - liquidateSeize ctx pos r } := rfl

lemma liquidateApply_irState (ctx : Ctx) (σ1 : ProtocolState) (t : String)
    (pos : Position) (r : Int) :
    (liquidateApply ctx σ1 t pos r).irState =
      { σ1.irState with total_borrowed := σ1.irState.total_borrowed - r } := rfl

lemma liquidateRepayAmount_accrue (ctx : Ctx) (p : Position) (a br sr : Int)
    (now : Nat) :
    liquidateRepayAmount ctx
        (InterestRateManager.accrue_interest_for_position p br sr now) a =
      liquidateRepayAmount ctx p a := by
  unfold liquidateRepayAmount
  rw [accrue_debt]

lemma liquidateSeize_accrue (ctx : Ctx) (p : Position) (r br sr : Int) (now : Nat) :
    liquidateSeize ctx (InterestRateManager.accrue_interest_for_position p br sr now) r =
      liquidateSeize ctx p r := by
  unfold liquidateSeize
  rw [accrue_collateral]

lemma dynamic_ratio_accrue (p : Position) (br sr : Int) (now : Nat) (price : Int) :
    StateHelper.dynamic_collateral_ratio
        (InterestRateManager.accrue_interest_for_position p br sr now) price =
      StateHelper.dynamic_collateral_ratio p price :=
  dynamic_ratio_congr _ _ _ (accrue_debt p br sr now) (accrue_collateral p br sr now)

/-- Claim C5: for every liquidation that passes the eligibility check, the
repaid amount is `min(requested, debt, debt * close_factor / 1e8)` — when
that minimum is 0 the call fails with `InvalidAmount` — and the seized
collateral is `min(repay + repay * liquidation_incentive / 1e8, collateral)`
so the seize never exceeds the target's collateral, and the target's debt
and collateral stay non-negative. -/
theorem C5_liquidation_sizing (ctx : Ctx) (σ : ProtocolState) (l t : String)
    (a : Int) (pos : Position)
    (hg : σ.reentrancy = false) (hl : l ≠ "") (ht : t ≠ "") (ha : 0 < a)
    (hpa : ctx.riskConfig.pause_liquidate = false) (hf : ctx.frozen t = false)
    (hpos : getPositionOpt σ.positions t = some pos)
    (helig : StateHelper.dynamic_collateral_ratio pos ctx.price < ctx.minRatio)
    (hd : 0 ≤ pos.debt) (hc : 0 ≤ pos.collateral)
    (hcf : 0 ≤ ctx.riskConfig.close_factor) :
    (liquidateRepayAmount ctx pos a = 0 →
      (liquidate ctx σ l t a).2 = .error .InvalidAmount) ∧
    (liquidateRepayAmount ctx pos a ≠ 0 →
      (liquidate ctx σ l t a).2 = .ok () ∧
      ∃ p2, getPositionOpt (liquidate ctx σ l t a).1.positions t = some p2 ∧
        p2.debt = pos.debt - liquidateRepayAmount ctx pos a ∧
        p2.collateral = pos.collateral -
          liquidateSeize ctx pos (liquidateRepayAmount ctx pos a) ∧
        liquidateSeize ctx pos (liquidateRepayAmount ctx pos a) ≤ pos.collateral ∧
        0 ≤ p2.debt ∧ 0 ≤ p2.collateral) := by
  have hna : ¬a ≤ 0 := not_le.mpr ha
  have hne : ¬(l = "" ∨ t = "") := by simp [hl, ht]
  have hred : liquidate ctx σ l t a =
      if liquidateRepayAmount ctx pos a = 0 then
        ({ updateState ctx { σ with reentrancy := true } with reentrancy := false },
          .error .InvalidAmount)
      else
        ({ liquidateApply ctx (updateState ctx { σ with reentrancy := true }) t
            (InterestRateManager.accrue_interest_for_position pos
              (updateState ctx { σ with reentrancy := true }).irState.current_borrow_rate
              (updateState ctx { σ with reentrancy := true }).irState.current_supply_rate
              ctx.now)
            (liquidateRepayAmount ctx pos a) with reentrancy := false },
          .ok ()) := by
    unfold liquidate withGuard
    rw [if_neg (by simp [hg])]
    dsimp only
    rw [if_neg hne, if_neg hna, if_neg (by simp [hpa]), if_neg (by simp [hf])]
    have hpos0 : getPositionOpt
        ({ σ with reentrancy := true } : ProtocolState).positions t = some pos := hpos
    rw [hpos0]
    dsimp only
    rw [dynamic_ratio_accrue, if_neg (not_le.mpr helig), liquidateRepayAmount_accrue]
    split <;> rfl
  have hrnn : 0 ≤ liquidateRepayAmount ctx pos a := by
    unfold liquidateRepayAmount
    exact le_min (le_min ha.le hd)
      (Int.tdiv_nonneg (mul_nonneg hd hcf) (by norm_num))
  have hrled : liquidateRepayAmount ctx pos a ≤ pos.debt := by
    unfold liquidateRepayAmount
    exact le_trans (min_le_left _ _) (min_le_right a pos.debt)
  have hsle : liquidateSeize ctx pos (liquidateRepayAmount ctx pos a) ≤
      pos.collateral := by
    unfold liquidateSeize
    exact min_le_right _ _
  constructor
  · intro hz
    rw [hred, if_pos hz]
  · intro hz
    rw [hred, if_neg hz]
    set p1 : Position := InterestRateManager.accrue_interest_for_position pos
        (updateState ctx { σ with reentrancy := true }).irState.current_borrow_rate
        (updateState ctx { σ with reentrancy := true }).irState.current_supply_rate
        ctx.now with hp1
    have hd1 : p1.debt = pos.debt := by
      rw [hp1]
      exact accrue_debt _ _ _ _
    have hc1 : p1.collateral = pos.collateral := by
      rw [hp1]
      exact accrue_collateral _ _ _ _
    have hs1 : liquidateSeize ctx p1 (liquidateRepayAmount ctx pos a) =
        liquidateSeize ctx pos (liquidateRepayAmount ctx pos a) := by
      rw [hp1]
      exact liquidateSeize_accrue _ _ _ _ _ _
    refine ⟨rfl, { p1 with
        debt := p1.debt - liquidateRepayAmount ctx pos a,
        collateral := p1.collateral -
          liquidateSeize ctx p1 (liquidateRepayAmount ctx pos a) }, ?_, ?_, ?_, hsle,
      ?_, ?_⟩
    · dsimp only
      rw [liquidateApply_positions]
      exact getPositionOpt_put _ _ _
    · dsimp only
      rw [hd1]
    · dsimp only
      rw [hc1, hs1]
    · dsimp only
      rw [hd1]
      exact sub_nonneg.mpr hrled
    · dsimp only
      rw [hc1, hs1]
      exact sub_nonneg.mpr hsle

set_option maxRecDepth 40000 in
/-- Witness for C5 at a concrete input: liquidating the eligible position of
`"B"` (debt 100, collateral 10) with requested amount 30 under a 50 percent
close factor repays 30 and seizes all 10 units of collateral (capped), both
fields staying non-negative. -/
theorem C5_liquidation_sizing_witness :
    (liquidate ctxEx σLiq "A" "B" 30).2 = .ok () ∧
    ∃ p2, getPositionOpt (liquidate ctxEx σLiq "A" "B" 30).1.positions "B" = some p2 ∧
      p2.debt = posUnder.debt - liquidateRepayAmount ctxEx posUnder 30 ∧
      p2.collateral = posUnder.collateral -
        liquidateSeize ctxEx posUnder (liquidateRepayAmount ctxEx posUnder 30) ∧
      liquidateSeize ctxEx posUnder (liquidateRepayAmount ctxEx posUnder 30) ≤
        posUnder.collateral ∧
      0 ≤ p2.debt ∧ 0 ≤ p2.collateral :=
  (C5_liquidation_sizing ctxEx σLiq "A" "B" 30 posUnder rfl (by decide) (by decide)
    (by decide) rfl rfl (by decide) (by decide) (by decide) (by decide)
    (by decide)).2 (by decide)

/-- Claim C6: under the stated preconditions, `borrow` returns
`InsufficientCollateralRatio` exactly when the dynamic (price-adjusted)
collateral ratio of the loaded position with debt increased by `amount`
falls below the configured minimum; on success the persisted position's
dynamic ratio is at least the minimum and `total_borrowed` grows by
`amount`. -/
theorem C6_borrow_ratio_check (ctx : Ctx) (σ : ProtocolState) (u : String) (a : Int)
    (hg : σ.reentrancy = false) (hu : u ≠ "") (ha : 0 < a)
    (hpa : ctx.riskConfig.pause_borrow = false) (hf : ctx.frozen u = false)
    (hb : ctx.blacklisted u = false) :
    ((borrow ctx σ u a).2 = .error .InsufficientCollateralRatio ↔
      StateHelper.dynamic_collateral_ratio
        { loadedPosition σ u with debt := (loadedPosition σ u).debt + a } ctx.price <
        ctx.minRatio) ∧
    ((borrow ctx σ u a).2 = .ok () →
      ∃ p2, getPositionOpt (borrow ctx σ u a).1.positions u = some p2 ∧
        ctx.minRatio ≤ StateHelper.dynamic_collateral_ratio p2 ctx.price ∧
        (borrow ctx σ u a).1.irState.total_borrowed =
          σ.irState.total_borrowed + a) := by
  have hna : ¬a ≤ 0 := not_le.mpr ha
  have hratio : StateHelper.dynamic_collateral_ratio
      (borrowNewPosition ctx { σ with reentrancy := true } u a) ctx.price =
      StateHelper.dynamic_collateral_ratio
        { loadedPosition σ u with debt := (loadedPosition σ u).debt + a }
        ctx.price := by
    apply dynamic_ratio_congr
    · rw [borrowNewPosition_guard]
      unfold borrowNewPosition
      dsimp only
      rw [accruedPosition_debt]
    · rw [borrowNewPosition_guard]
      unfold borrowNewPosition
      dsimp only
      rw [accruedPosition_collateral]
  have hred : borrow ctx σ u a =
      if StateHelper.dynamic_collateral_ratio
          (borrowNewPosition ctx { σ with reentrancy := true } u a) ctx.price <
          ctx.minRatio then
        ({ updateState ctx { σ with reentrancy := true } with reentrancy := false },
          .error .InsufficientCollateralRatio)
      else
        ({ borrowApply ctx { σ with reentrancy := true } u a with
            reentrancy := false },
          .ok ()) := by
    unfold borrow withGuard
    rw [if_neg (by simp [hg])]
    dsimp only
    rw [if_neg hu, if_neg hna, if_neg (by simp [hpa]), if_neg (by simp [hf]),
      if_neg (by simp [hb])]
    split <;> rfl
  constructor
  · rw [hred]
    by_cases hcond : StateHelper.dynamic_collateral_ratio
        (borrowNewPosition ctx { σ with reentrancy := true } u a) ctx.price <
        ctx.minRatio
    · rw [if_pos hcond]
      exact ⟨fun _ => hratio ▸ hcond, fun _ => rfl⟩
    · rw [if_neg hcond]
      refine ⟨fun h => absurd h (by simp), fun h => absurd ?_ hcond⟩
      rw [hratio]
      exact h
  · intro hok
    by_cases hcond : StateHelper.dynamic_collateral_ratio
        (borrowNewPosition ctx { σ with reentrancy := true } u a) ctx.price <
        ctx.minRatio
    · rw [hred, if_pos hcond] at hok
      exact absurd hok (by simp)
    · rw [hred, if_neg hcond]
      refine ⟨borrowNewPosition ctx { σ with reentrancy := true } u a, ?_, ?_, ?_⟩
      · dsimp only
        rw [borrowApply_positions]
        exact getPositionOpt_put _ _ _
      · exact not_lt.mp hcond
      · dsimp only
        rw [borrowApply_irState]

lemma deposit_ok_eq (ctx : Ctx) (σ : ProtocolState) (u : String) (a : Int)
    (h : (deposit_collateral ctx σ u a).2 = .ok ()) :
    deposit_collateral ctx σ u a =
      ({ depositApply ctx { σ with reentrancy := true } u a with
          reentrancy := false }, .ok ()) := by
  unfold deposit_collateral withGuard at h ⊢
  dsimp only at h ⊢
  split_ifs at h ⊢ <;> rfl

lemma borrow_ok_eq (ctx : Ctx) (σ : ProtocolState) (u : String) (a : Int)
    (h : (borrow ctx σ u a).2 = .ok ()) :
    borrow ctx σ u a =
      ({ borrowApply ctx { σ with reentrancy := true } u a with
          reentrancy := false }, .ok ()) := by
  unfold borrow withGuard at h ⊢
  dsimp only at h ⊢
  split_ifs at h ⊢ <;> rfl

lemma repay_ok_eq (ctx : Ctx) (σ : ProtocolState) (u : String) (a : Int)
    (h : (repay ctx σ u a).2 = .ok ()) :
    repay ctx σ u a =
      ({ repayApply ctx { σ with reentrancy := true } u a with
          reentrancy := false }, .ok ()) := by
  unfold repay withGuard at h ⊢
  dsimp only at h ⊢
  split_ifs at h ⊢ <;> rfl

lemma withdraw_ok_eq (ctx : Ctx) (σ : ProtocolState) (u : String) (a : Int)
    (h : (withdraw ctx σ u a).2 = .ok ()) :
    withdraw ctx σ u a =
      ({ σ with
          reentrancy := false,
          positions := putPosition σ.positions u
            { loadedPosition σ u with
                collateral := (loadedPosition σ u).collateral - a } }, .ok ()) := by
  unfold withdraw withGuard at h ⊢
  dsimp only at h ⊢
  split_ifs at h ⊢
  rcases hm : getPositionOpt σ.positions u with _ | pos
  · simp only [hm] at h
    exact Except.noConfusion h
  · simp only [hm] at h ⊢
    have hload : loadedPosition σ u = pos := by
      unfold loadedPosition
      rw [hm]
      rfl
    rw [hload]
    split_ifs at h ⊢
    rfl

lemma liquidate_ok_eq (ctx : Ctx) (σ : ProtocolState) (l t : String) (a : Int)
    (h : (liquidate ctx σ l t a).2 = .ok ()) :
    liquidate ctx σ l t a =
      ({ liquidateApply ctx (updateState ctx { σ with reentrancy := true }) t
          (accruedPosition ctx σ t)
          (liquidateRepayAmount ctx (accruedPosition ctx σ t) a) with
        reentrancy := false }, .ok ()) := by
  unfold liquidate withGuard at h ⊢
  dsimp only at h ⊢
  split_ifs at h ⊢
  rcases hm : getPositionOpt σ.positions t with _ | pos
  · simp only [hm] at h
    exact Except.noConfusion h
  · simp only [hm] at h ⊢
    have haccr : accruedPosition ctx σ t =
        InterestRateManager.accrue_interest_for_position pos
          (updateState ctx { σ with reentrancy := true }).irState.current_borrow_rate
          (updateState ctx { σ with reentrancy := true }).irState.current_supply_rate
          ctx.now := by
      rw [← accruedPosition_guard]
      unfold accruedPosition
      dsimp only
      rw [show loadedPosition { σ with reentrancy := true } t = pos from by
        rw [loadedPosition_guard]
        unfold loadedPosition
        rw [hm]
        rfl]
    rw [haccr]
    split_ifs at h ⊢
    rfl

/-- Claim C2 (amended): deposit, borrow, repay and liquidate each refresh
the global rate state (its accrual stamp becomes the call's timestamp) and
accrue interest into the loaded position before applying their delta — the
persisted position is the accrued position with the delta applied on top.
Withdraw performs neither step: it mutates the raw stored position and
leaves the global interest-rate state untouched. -/
theorem C2_accrual_before_mutation (ctx : Ctx) (σ : ProtocolState) (u l t : String)
    (a : Int) :
    ((deposit_collateral ctx σ u a).2 = .ok () →
      getPositionOpt (deposit_collateral ctx σ u a).1.positions u =
        some { accruedPosition ctx σ u with
            collateral := (accruedPosition ctx σ u).collateral + a } ∧
      (deposit_collateral ctx σ u a).1.irState.last_accrual_time = ctx.now) ∧
    ((borrow ctx σ u a).2 = .ok () →
      getPositionOpt (borrow ctx σ u a).1.positions u =
        some (borrowNewPosition ctx σ u a) ∧
      (borrow ctx σ u a).1.irState.last_accrual_time = ctx.now) ∧
    ((repay ctx σ u a).2 = .ok () →
      getPositionOpt (repay ctx σ u a).1.positions u =
        some { accruedPosition ctx σ u with
            debt := max ((accruedPosition ctx σ u).debt - a) 0 } ∧
      (repay ctx σ u a).1.irState.last_accrual_time = ctx.now) ∧
    ((liquidate ctx σ l t a).2 = .ok () →
      getPositionOpt (liquidate ctx σ l t a).1.positions t =
        some { accruedPosition ctx σ t with
            debt := (accruedPosition ctx σ t).debt -
              liquidateRepayAmount ctx (accruedPosition ctx σ t) a,
            collateral := (accruedPosition ctx σ t).collateral -
              liquidateSeize ctx (accruedPosition ctx σ t)
                (liquidateRepayAmount ctx (accruedPosition ctx σ t) a) } ∧
      (liquidate ctx σ l t a).1.irState.last_accrual_time = ctx.now) ∧
    ((withdraw ctx σ u a).2 = .ok () →
      getPositionOpt (withdraw ctx σ u a).1.positions u =
        some { loadedPosition σ u with
            collateral := (loadedPosition σ u).collateral - a } ∧
      (withdraw ctx σ u a).1.irState = σ.irState) := by
  refine ⟨fun h => ?_, fun h => ?_, fun h => ?_, fun h => ?_, fun h => ?_⟩
  · rw [deposit_ok_eq ctx σ u a h]
    constructor
    · dsimp only
      rw [depositApply_positions]
      exact getPositionOpt_put _ _ _
    · dsimp only
      rw [depositApply_irState]
      rfl
  · rw [borrow_ok_eq ctx σ u a h]
    constructor
    · dsimp only
      rw [borrowApply_positions]
      exact getPositionOpt_put _ _ _
    · dsimp only
      rw [borrowApply_irState]
      rfl
  · rw [repay_ok_eq ctx σ u a h]
    constructor
    · dsimp only
      rw [repayApply_positions]
      exact getPositionOpt_put _ _ _
    · dsimp only
      rw [repayApply_irState]
      rfl
  · rw [liquidate_ok_eq ctx σ l t a h]
    constructor
    · dsimp only
      rw [liquidateApply_positions]
      exact getPositionOpt_put _ _ _
    · dsimp only
      rw [liquidateApply_irState]
      rfl
  · rw [withdraw_ok_eq ctx σ u a h]
    exact ⟨getPositionOpt_put _ _ _, rfl⟩

set_option maxRecDepth 40000 in
/-- Witness for C2 at a concrete input: a successful deposit of 10 by `"A"`
stores the accrued position with the collateral delta applied and stamps
the global rate state with the call's timestamp. -/
theorem C2_accrual_before_mutation_witness :
    getPositionOpt (deposit_collateral ctxEx initialState "A" 10).1.positions "A" =
      some { accruedPosition ctxEx initialState "A" with
          collateral := (accruedPosition ctxEx initialState "A").collateral + 10 } ∧
    (deposit_collateral ctxEx initialState "A" 10).1.irState.last_accrual_time =
      ctxEx.now :=
  (C2_accrual_before_mutation ctxEx initialState "A" "A" "B" 10).1 (by decide)

set_option maxRecDepth 40000 in
/-- Counterexample for C2: the withdrawal of 40 by `"A"` at timestamp 100
succeeds although the position was last accrued at time 50, yet the stored
position still carries accrual stamp 50 and the global rate state still
carries stamp 0 — `withdraw` performs neither the rate refresh nor the
accrual that the claim requires of every operation. -/
theorem C2_withdraw_skips_accrual_counterexample :
    (withdraw ctxEx σIdle "A" 40).2 = .ok () ∧
    ((getPositionOpt (withdraw ctxEx σIdle "A" 40).1.positions "A").getD
        (Position.new "A" 0 0)).last_accrual_time = 50 ∧
    (withdraw ctxEx σIdle "A" 40).1.irState.last_accrual_time = 0 ∧
    ctxEx.now = 100 :=
  ⟨by decide, by decide, by decide, rfl⟩

lemma deposit_error_no_effect (ctx : Ctx) (σ : ProtocolState) (u : String)
    (a : Int) (e : ProtocolError)
    (h : (deposit_collateral ctx σ u a).2 = .error e) :
    (deposit_collateral ctx σ u a).1.positions = σ.positions ∧
    (deposit_collateral ctx σ u a).1.reserveData = σ.reserveData ∧
    (deposit_collateral ctx σ u a).1.metrics = σ.metrics ∧
    (deposit_collateral ctx σ u a).1.irState.total_borrowed =
      σ.irState.total_borrowed ∧
    (deposit_collateral ctx σ u a).1.irState.total_supplied =
      σ.irState.total_supplied := by
  unfold deposit_collateral withGuard at h ⊢
  dsimp only at h ⊢
  split_ifs at h ⊢ <;> exact ⟨rfl, rfl, rfl, rfl, rfl⟩

lemma borrow_error_no_effect (ctx : Ctx) (σ : ProtocolState) (u : String)
    (a : Int) (e : ProtocolError)
    (h : (borrow ctx σ u a).2 = .error e) :
    (borrow ctx σ u a).1.positions = σ.positions ∧
    (borrow ctx σ u a).1.reserveData = σ.reserveData ∧
    (borrow ctx σ u a).1.metrics = σ.metrics ∧
    (borrow ctx σ u a).1.irState.total_borrowed = σ.irState.total_borrowed ∧
    (borrow ctx σ u a).1.irState.total_supplied = σ.irState.total_supplied := by
  unfold borrow withGuard at h ⊢
  dsimp only at h ⊢
  split_ifs at h ⊢ <;> exact ⟨rfl, rfl, rfl, rfl, rfl⟩

lemma repay_error_no_effect (ctx : Ctx) (σ : ProtocolState) (u : String)
    (a : Int) (e : ProtocolError)
    (h : (repay ctx σ u a).2 = .error e) :
    (repay ctx σ u a).1.positions = σ.positions ∧
    (repay ctx σ u a).1.reserveData = σ.reserveData ∧
    (repay ctx σ u a).1.metrics = σ.metrics ∧
    (repay ctx σ u a).1.irState.total_borrowed = σ.irState.total_borrowed ∧
    (repay ctx σ u a).1.irState.total_supplied = σ.irState.total_supplied := by
  unfold repay withGuard at h ⊢
  dsimp only at h ⊢
  split_ifs at h ⊢ <;> exact ⟨rfl, rfl, rfl, rfl, rfl⟩

lemma withdraw_error_no_effect (ctx : Ctx) (σ : ProtocolState) (u : String)
    (a : Int) (e : ProtocolError)
    (h : (withdraw ctx σ u a).2 = .error e) :
    (withdraw ctx σ u a).1.positions = σ.positions ∧
    (withdraw ctx σ u a).1.reserveData = σ.reserveData ∧
    (withdraw ctx σ u a).1.metrics = σ.metrics ∧
    (withdraw ctx σ u a).1.irState.total_borrowed = σ.irState.total_borrowed ∧
    (withdraw ctx σ u a).1.irState.total_supplied = σ.irState.total_supplied := by
  unfold withdraw withGuard at h ⊢
  dsimp only at h ⊢
  split_ifs at h ⊢ <;> try exact ⟨rfl, rfl, rfl, rfl, rfl⟩
  rcases hm : getPositionOpt σ.positions u with _ | pos
  · simp only [hm] at h ⊢
    exact ⟨trivial, trivial, trivial, trivial, trivial⟩
  · simp only [hm] at h ⊢
    split_ifs at h ⊢ <;> exact ⟨rfl, rfl, rfl, rfl, rfl⟩

lemma liquidate_error_no_effect (ctx : Ctx) (σ : ProtocolState) (l t : String)
    (a : Int) (e : ProtocolError)
    (h : (liquidate ctx σ l t a).2 = .error e) :
    (liquidate ctx σ l t a).1.positions = σ.positions ∧
    (liquidate ctx σ l t a).1.reserveData = σ.reserveData ∧
    (liquidate ctx σ l t a).1.metrics = σ.metrics ∧
    (liquidate ctx σ l t a).1.irState.total_borrowed = σ.irState.total_borrowed ∧
    (liquidate ctx σ l t a).1.irState.total_supplied =
      σ.irState.total_supplied := by
  unfold liquidate withGuard at h ⊢
  dsimp only at h ⊢
  split_ifs at h ⊢ <;> try exact ⟨rfl, rfl, rfl, rfl, rfl⟩
  rcases hm : getPositionOpt σ.positions t with _ | pos
  · simp only [hm] at h ⊢
    exact ⟨trivial, trivial, trivial, trivial, trivial⟩
  · simp only [hm] at h ⊢
    split_ifs at h ⊢ <;> exact ⟨rfl, rfl, rfl, rfl, rfl⟩

/-- Claim C4 (amended): whenever any of the five mutating operations
returns an error, the stored positions, the reserve data, the revenue
metrics and the aggregate totals (`total_borrowed`, `total_supplied`) are
exactly as before the call (the guard flag aside); the cached rate fields
and accrual stamp of the interest-rate state, however, may have been
refreshed and persisted by `update_state` before the failure (see the
counterexample). -/
theorem C4_errors_no_partial_effect (ctx : Ctx) (σ : ProtocolState)
    (u l t : String) (a : Int) (e : ProtocolError) :
    ((deposit_collateral ctx σ u a).2 = .error e →
      (deposit_collateral ctx σ u a).1.positions = σ.positions ∧
      (deposit_collateral ctx σ u a).1.reserveData = σ.reserveData ∧
      (deposit_collateral ctx σ u a).1.metrics = σ.metrics ∧
      (deposit_collateral ctx σ u a).1.irState.total_borrowed =
        σ.irState.total_borrowed ∧
      (deposit_collateral ctx σ u a).1.irState.total_supplied =
        σ.irState.total_supplied) ∧
    ((borrow ctx σ u a).2 = .error e →
      (borrow ctx σ u a).1.positions = σ.positions ∧
      (borrow ctx σ u a).1.reserveData = σ.reserveData ∧
      (borrow ctx σ u a).1.metrics = σ.metrics ∧
      (borrow ctx σ u a).1.irState.total_borrowed = σ.irState.total_borrowed ∧
      (borrow ctx σ u a).1.irState.total_supplied = σ.irState.total_supplied) ∧
    ((repay ctx σ u a).2 = .error e →
      (repay ctx σ u a).1.positions = σ.positions ∧
      (repay ctx σ u a).1.reserveData = σ.reserveData ∧
      (repay ctx σ u a).1.metrics = σ.metrics ∧
      (repay ctx σ u a).1.irState.total_borrowed = σ.irState.total_borrowed ∧
      (repay ctx σ u a).1.irState.total_supplied = σ.irState.total_supplied) ∧
    ((withdraw ctx σ u a).2 = .error e →
      (withdraw ctx σ u a).1.positions = σ.positions ∧
      (withdraw ctx σ u a).1.reserveData = σ.reserveData ∧
      (withdraw ctx σ u a).1.metrics = σ.metrics ∧
      (withdraw ctx σ u a).1.irState.total_borrowed = σ.irState.total_borrowed ∧
      (withdraw ctx σ u a).1.irState.total_supplied = σ.irState.total_supplied) ∧
    ((liquidate ctx σ l t a).2 = .error e →
      (liquidate ctx σ l t a).1.positions = σ.positions ∧
      (liquidate ctx σ l t a).1.reserveData = σ.reserveData ∧
      (liquidate ctx σ l t a).1.metrics = σ.metrics ∧
      (liquidate ctx σ l t a).1.irState.total_borrowed =
        σ.irState.total_borrowed ∧
      (liquidate ctx σ l t a).1.irState.total_supplied =
        σ.irState.total_supplied) :=
  ⟨deposit_error_no_effect ctx σ u a e, borrow_error_no_effect ctx σ u a e,
   repay_error_no_effect ctx σ u a e, withdraw_error_no_effect ctx σ u a e,
   liquidate_error_no_effect ctx σ l t a e⟩

set_option maxRecDepth 40000 in
/-- Witness for C4 at a concrete input: a withdrawal of 1000 against 100 of
collateral fails with `InsufficientCollateral` and leaves positions,
reserves, metrics and totals unchanged. -/
theorem C4_errors_no_partial_effect_witness :
    (withdraw ctxEx σIdle "A" 1000).1.positions = σIdle.positions ∧
    (withdraw ctxEx σIdle "A" 1000).1.reserveData = σIdle.reserveData ∧
    (withdraw ctxEx σIdle "A" 1000).1.metrics = σIdle.metrics ∧
    (withdraw ctxEx σIdle "A" 1000).1.irState.total_borrowed =
      σIdle.irState.total_borrowed ∧
    (withdraw ctxEx σIdle "A" 1000).1.irState.total_supplied =
      σIdle.irState.total_supplied :=
  (C4_errors_no_partial_effect ctxEx σIdle "A" "A" "B" 1000
    .InsufficientCollateral).2.2.2.1 (by decide)

set_option maxRecDepth 40000 in
/-- Counterexample for C4: a borrow by `"B"` (no collateral) fails the
ratio check, yet the persisted global interest-rate state differs from the
pre-call one — `update_state` committed refreshed rates and a new accrual
stamp before the error, so the claim that the stored interest-rate state is
unchanged on every error path is false. -/
theorem C4_borrow_error_persists_rate_refresh :
    (borrow ctxEx σPoor "B" 10).2 = .error .InsufficientCollateralRatio ∧
    (borrow ctxEx σPoor "B" 10).1.irState ≠ σPoor.irState :=
  ⟨by decide, by decide⟩

set_option maxRecDepth 40000 in
/-- Witness for C6 at a concrete input: borrowing 2000 against 5000 of
collateral at price 2.0 (dynamic ratio 500 percent, minimum 150) succeeds,
stores a position with ratio at least the minimum and raises
`total_borrowed` by 2000. -/
theorem C6_borrow_ratio_check_witness :
    (borrow ctxEx σRich "A" 2000).2 = .ok () ∧
    ∃ p2, getPositionOpt (borrow ctxEx σRich "A" 2000).1.positions "A" = some p2 ∧
      ctxEx.minRatio ≤ StateHelper.dynamic_collateral_ratio p2 ctxEx.price ∧
      (borrow ctxEx σRich "A" 2000).1.irState.total_borrowed =
        σRich.irState.total_borrowed + 2000 :=
  ⟨by decide,
   (C6_borrow_ratio_check ctxEx σRich "A" 2000 rfl (by decide) (by decide)
      rfl rfl rfl).2 (by decide)⟩

lemma update_rates_total_borrowed (st : InterestRateState)
    (cfg : InterestRateConfig) (now : Nat) :
    (InterestRateManager.update_rates st cfg now).total_borrowed =
      st.total_borrowed := rfl

lemma update_rates_total_supplied (st : InterestRateState)
    (cfg : InterestRateConfig) (now : Nat) :
    (InterestRateManager.update_rates st cfg now).total_supplied =
      st.total_supplied := rfl

lemma updateState_positions (ctx : Ctx) (σ : ProtocolState) :
    (updateState ctx σ).positions = σ.positions := rfl

lemma updateState_irState (ctx : Ctx) (σ : ProtocolState) :
    (updateState ctx σ).irState =
      InterestRateManager.update_rates σ.irState ctx.irConfig ctx.now := rfl

lemma loadedPosition_def (σ : ProtocolState) (u : String) :
    (getPositionOpt σ.positions u).getD (Position.new u 0 0) =
      loadedPosition σ u := rfl

lemma borrowNewPosition_debt (ctx : Ctx) (σ0 : ProtocolState) (u : String)
    (a : Int) :
    (borrowNewPosition ctx σ0 u a).debt = (loadedPosition σ0 u).debt + a := by
  unfold borrowNewPosition
  dsimp only
  rw [accruedPosition_debt]

lemma borrowNewPosition_collateral (ctx : Ctx) (σ0 : ProtocolState) (u : String)
    (a : Int) :
    (borrowNewPosition ctx σ0 u a).collateral =
      (loadedPosition σ0 u).collateral := by
  unfold borrowNewPosition
  dsimp only
  rw [accruedPosition_collateral]

lemma sumDebt_put (ps : List (String × Position)) (u : String) (p : Position) :
    sumDebt (putPosition ps u p) =
      sumDebt ps + p.debt -
        ((getPositionOpt ps u).getD (Position.new u 0 0)).debt := by
  induction ps with
  | nil => simp [putPosition, sumDebt, getPositionOpt, Position.new]
  | cons q rest ih =>
    by_cases h : q.1 = u
    · simp only [putPosition, if_pos h, sumDebt, List.map_cons, List.sum_cons,
        getPositionOpt]
      rw [List.find?_cons_of_pos _ (by simpa using h)]
      simp only [Option.map_some', Option.getD_some]
      ring
    · simp only [putPosition, if_neg h, sumDebt, List.map_cons, List.sum_cons,
        getPositionOpt] at ih ⊢
      rw [List.find?_cons_of_neg _ (by simpa using h)]
      rw [ih]
      ring

lemma sumCollateral_put (ps : List (String × Position)) (u : String)
    (p : Position) :
    sumCollateral (putPosition ps u p) =
      sumCollateral ps + p.collateral -
        ((getPositionOpt ps u).getD (Position.new u 0 0)).collateral := by
  induction ps with
  | nil => simp [putPosition, sumCollateral, getPositionOpt, Position.new]
  | cons q rest ih =>
    by_cases h : q.1 = u
    · simp only [putPosition, if_pos h, sumCollateral, List.map_cons,
        List.sum_cons, getPositionOpt]
      rw [List.find?_cons_of_pos _ (by simpa using h)]
      simp only [Option.map_some', Option.getD_some]
      ring
    · simp only [putPosition, if_neg h, sumCollateral, List.map_cons,
        List.sum_cons, getPositionOpt] at ih ⊢
      rw [List.find?_cons_of_neg _ (by simpa using h)]
      rw [ih]
      ring

lemma deposit_ok_gaps (ctx : Ctx) (σ : ProtocolState) (u : String) (a : Int)
    (h : (deposit_collateral ctx σ u a).2 = .ok ()) :
    ((deposit_collateral ctx σ u a).1.irState.total_borrowed -
        sumDebt (deposit_collateral ctx σ u a).1.positions =
      σ.irState.total_borrowed - sumDebt σ.positions) ∧
    ((deposit_collateral ctx σ u a).1.irState.total_supplied -
        sumCollateral (deposit_collateral ctx σ u a).1.positions =
      σ.irState.total_supplied - sumCollateral σ.positions) := by
  rw [deposit_ok_eq ctx σ u a h]
  dsimp only
  rw [depositApply_positions, depositApply_irState]
  dsimp only
  constructor
  · rw [update_rates_total_borrowed, sumDebt_put, loadedPosition_def]
    dsimp only
    rw [accruedPosition_debt, loadedPosition_guard]
    ring
  · rw [sumCollateral_put, loadedPosition_def]
    dsimp only
    rw [accruedPosition_collateral, loadedPosition_guard]
    ring

lemma borrow_ok_gaps (ctx : Ctx) (σ : ProtocolState) (u : String) (a : Int)
    (h : (borrow ctx σ u a).2 = .ok ()) :
    ((borrow ctx σ u a).1.irState.total_borrowed -
        sumDebt (borrow ctx σ u a).1.positions =
      σ.irState.total_borrowed - sumDebt σ.positions) ∧
    ((borrow ctx σ u a).1.irState.total_supplied -
        sumCollateral (borrow ctx σ u a).1.positions =
      σ.irState.total_supplied - sumCollateral σ.positions) := by
  rw [borrow_ok_eq ctx σ u a h]
  dsimp only
  rw [borrowApply_positions, borrowApply_irState]
  dsimp only
  constructor
  · rw [sumDebt_put, loadedPosition_def, borrowNewPosition_debt,
      loadedPosition_guard]
    ring
  · rw [update_rates_total_supplied, sumCollateral_put, loadedPosition_def,
      borrowNewPosition_collateral, loadedPosition_guard]
    ring

lemma repay_ok_gaps (ctx : Ctx) (σ : ProtocolState) (u : String) (a : Int)
    (h : (repay ctx σ u a).2 = .ok ()) :
    ((repay ctx σ u a).1.irState.total_borrowed -
        sumDebt (repay ctx σ u a).1.positions =
      σ.irState.total_borrowed - sumDebt σ.positions) ∧
    ((repay ctx σ u a).1.irState.total_supplied -
        sumCollateral (repay ctx σ u a).1.positions =
      σ.irState.total_supplied - sumCollateral σ.positions) := by
  rw [repay_ok_eq ctx σ u a h]
  dsimp only
  rw [repayApply_positions, repayApply_irState]
  dsimp only
  constructor
  · rw [sumDebt_put, loadedPosition_def]
    dsimp only
    rw [accruedPosition_debt, loadedPosition_guard]
    ring
  · rw [update_rates_total_supplied, sumCollateral_put, loadedPosition_def]
    dsimp only
    rw [accruedPosition_collateral, loadedPosition_guard]
    ring

lemma withdraw_ok_debtGap (ctx : Ctx) (σ : ProtocolState) (u : String) (a : Int)
    (h : (withdraw ctx σ u a).2 = .ok ()) :
    (withdraw ctx σ u a).1.irState.total_borrowed -
        sumDebt (withdraw ctx σ u a).1.positions =
      σ.irState.total_borrowed - sumDebt σ.positions := by
  rw [withdraw_ok_eq ctx σ u a h]
  dsimp only
  rw [sumDebt_put, loadedPosition_def]
  dsimp only
  ring

lemma liquidate_ok_debtGap (ctx : Ctx) (σ : ProtocolState) (l t : String)
    (a : Int) (h : (liquidate ctx σ l t a).2 = .ok ()) :
    (liquidate ctx σ l t a).1.irState.total_borrowed -
        sumDebt (liquidate ctx σ l t a).1.positions =
      σ.irState.total_borrowed - sumDebt σ.positions := by
  rw [liquidate_ok_eq ctx σ l t a h]
  dsimp only
  rw [liquidateApply_positions, liquidateApply_irState, updateState_positions,
    updateState_irState]
  dsimp only
  rw [update_rates_total_borrowed, sumDebt_put, loadedPosition_def]
  dsimp only
  rw [accruedPosition_debt]
  ring

lemma applyOp_ok_gaps (ctx : Ctx) (σ : ProtocolState) (op : Op)
    (h : (applyOp ctx σ op).2 = .ok ()) :
    ((applyOp ctx σ op).1.irState.total_borrowed -
        sumDebt (applyOp ctx σ op).1.positions =
      σ.irState.total_borrowed - sumDebt σ.positions) ∧
    (isWithdrawOrLiquidate op = false →
      (applyOp ctx σ op).1.irState.total_supplied -
          sumCollateral (applyOp ctx σ op).1.positions =
        σ.irState.total_supplied - sumCollateral σ.positions) := by
  cases op with
  | deposit u a =>
    exact ⟨(deposit_ok_gaps ctx σ u a h).1, fun _ => (deposit_ok_gaps ctx σ u a h).2⟩
  | borrow u a =>
    exact ⟨(borrow_ok_gaps ctx σ u a h).1, fun _ => (borrow_ok_gaps ctx σ u a h).2⟩
  | repay u a =>
    exact ⟨(repay_ok_gaps ctx σ u a h).1, fun _ => (repay_ok_gaps ctx σ u a h).2⟩
  | withdraw u a =>
    refine ⟨withdraw_ok_debtGap ctx σ u a h, fun hfalse => ?_⟩
    simp [isWithdrawOrLiquidate] at hfalse
  | liquidate l t a =>
    refine ⟨liquidate_ok_debtGap ctx σ l t a h, fun hfalse => ?_⟩
    simp [isWithdrawOrLiquidate] at hfalse

lemma traceOk_gaps (tr : List (Ctx × Op)) : ∀ σ : ProtocolState,
    traceOk σ tr = true →
    ((runTrace σ tr).irState.total_borrowed -
        sumDebt (runTrace σ tr).positions =
      σ.irState.total_borrowed - sumDebt σ.positions) ∧
    ((tr.all fun step => !isWithdrawOrLiquidate step.2) = true →
      (runTrace σ tr).irState.total_supplied -
          sumCollateral (runTrace σ tr).positions =
        σ.irState.total_supplied - sumCollateral σ.positions) := by
  induction tr with
  | nil =>
    intro σ _
    exact ⟨rfl, fun _ => rfl⟩
  | cons s rest ih =>
    intro σ hok
    unfold traceOk at hok
    simp only [Bool.and_eq_true, decide_eq_true_eq] at hok
    obtain ⟨h1, h2⟩ := hok
    have hstep := applyOp_ok_gaps s.1 σ s.2 h1
    have hrest := ih (applyOp s.1 σ s.2).1 h2
    unfold runTrace
    constructor
    · rw [hrest.1, hstep.1]
    · intro hall
      simp only [List.all_cons, Bool.and_eq_true, Bool.not_eq_eq_eq_not,
        Bool.not_true] at hall
      rw [hrest.2 (by simpa using hall.2), hstep.2 (by simpa using hall.1)]

set_option maxRecDepth 40000 in
/-- Claim C3 (amended): starting from the initial state, after every
sequence of successful operations the global `total_borrowed` equals the
sum of all stored positions' debt; the matching statement for
`total_supplied` and collateral holds for sequences that contain no
withdraw and no liquidate — those two operations reduce position
collateral without decrementing `total_supplied` (see the
counterexample). -/
theorem C3_aggregate_consistency (tr : List (Ctx × Op))
    (hok : traceOk initialState tr = true) :
    (runTrace initialState tr).irState.total_borrowed =
      sumDebt (runTrace initialState tr).positions ∧
    ((tr.all fun step => !isWithdrawOrLiquidate step.2) = true →
      (runTrace initialState tr).irState.total_supplied =
        sumCollateral (runTrace initialState tr).positions) := by
  have h := traceOk_gaps tr initialState hok
  constructor
  · have h1 := h.1
    have hz : initialState.irState.total_borrowed - sumDebt initialState.positions =
        (0 : Int) := rfl
    rw [hz] at h1
    omega
  · intro hall
    have h2 := h.2 hall
    have hz : initialState.irState.total_supplied -
        sumCollateral initialState.positions = (0 : Int) := rfl
    rw [hz] at h2
    omega

set_option maxRecDepth 40000 in
/-- Witness for C3 at a concrete input: after the single successful deposit
of 10 by `"A"`, both aggregates match the position sums. -/
theorem C3_aggregate_consistency_witness :
    (runTrace initialState depositTrace).irState.total_borrowed =
      sumDebt (runTrace initialState depositTrace).positions ∧
    (runTrace initialState depositTrace).irState.total_supplied =
      sumCollateral (runTrace initialState depositTrace).positions :=
  ⟨(C3_aggregate_consistency depositTrace (by decide)).1,
   (C3_aggregate_consistency depositTrace (by decide)).2 (by decide)⟩

set_option maxRecDepth 100000 in
/-- Counterexample for C3: the successful trace "deposit 10, withdraw 5"
leaves `total_supplied` at 10 while the positions hold only 5 of
collateral, so the aggregate-consistency claim fails for sequences with a
withdrawal. -/
theorem C3_total_supplied_counterexample :
    traceOk initialState depositWithdrawTrace = true ∧
    (runTrace initialState depositWithdrawTrace).irState.total_supplied = 10 ∧
    sumCollateral (runTrace initialState depositWithdrawTrace).positions = 5 :=
  ⟨by decide, by decide, by decide⟩

end StellarLend
